import Mathlib

/-!
Verification of the InsightTxn transaction-analytics data pipeline
(`Graphs.py`): ingestion and cleaning (`process_data`), filtering
(`apply_filters`), summary metrics, and the grouped aggregates behind the
four chart tabs.

The pandas script is embedded shallowly:
* a DataFrame is a `List` of records plus presence flags for the columns
  the script may drop or may find missing (`Transaction_ID`, `Auth_code`,
  `Success`);
* the raw `Day` string of a row is represented together with its pandas
  parse result, as an `Option Date` (`none` models a value that
  `pd.to_datetime(..., errors := coerce)` turns into `NaT`);
* in-place mutation of the caller frame is explicit state passing:
  `process_data` returns the caller frame as it is left after the
  `inplace` column drop, together with the cleaned output;
* failures of the script (`st.stop`, uncaught Python exceptions) are
  `Except` errors.
-/

namespace InsightTxn

/-- Calendar date as carried by the parsed `Day` column. Pandas
timestamps compare chronologically, modelled by the lexicographic order
on (year, month, day). -/
structure Date where
  year : Nat
  month : Nat
  day : Nat
deriving DecidableEq

/-- Chronological order on dates: lexicographic on year, month, day. -/
def Date.le (a b : Date) : Prop :=
  a.year < b.year ∨ (a.year = b.year ∧
    (a.month < b.month ∨ (a.month = b.month ∧ a.day ≤ b.day)))

instance : LE Date := ⟨Date.le⟩

instance (a b : Date) : Decidable (a ≤ b) :=
  inferInstanceAs (Decidable (a.year < b.year ∨ (a.year = b.year ∧
    (a.month < b.month ∨ (a.month = b.month ∧ a.day ≤ b.day)))))

/-- Zero-pad a number to two digits, as `%m` does in `strftime`. -/
def pad2 (n : Nat) : String :=
  if n < 10 then "0" ++ toString n else toString n

/-- Zero-pad a number to four digits, as `%Y` does in `strftime`. -/
def pad4 (n : Nat) : String :=
  if n < 10 then "000" ++ toString n
  else if n < 100 then "00" ++ toString n
  else if n < 1000 then "0" ++ toString n
  else toString n

/-- `Day.dt.strftime(%Y-%m)`: the derived month bucket
(`int_created_date` column). -/
def Date.periodKey (d : Date) : String :=
  pad4 d.year ++ "-" ++ pad2 d.month

/-- One row of the uploaded CSV, restricted to the columns the pipeline
reads. `day` is the pandas parse of the raw `Day` cell (`none` when the
cell does not parse as a date); `transaction_notes` is `none` when the
`Transaction_Notes` cell is missing (NaN); `success` is the value of the
`Success` cell, meaningful when the table carries that column. `typ`
stands for the CSV column named `Type`. -/
structure RawRow where
  total : ℚ
  transaction_type : String
  typ : String
  source : String
  country : String
  day : Option Date
  transaction_notes : Option String
  success : Nat
deriving DecidableEq

/-- The uploaded DataFrame: its rows plus presence flags for the three
optional columns the script treats specially (`Transaction_ID` and
`Auth_code` are dropped when present; `Success` drives the success
filter). -/
structure RawTable where
  hasTransactionID : Bool
  hasAuthCode : Bool
  hasSuccess : Bool
  rows : List RawRow
deriving DecidableEq

/-- A cleaned record: the six projected columns of line 93 of `Graphs.py`
plus the derived `int_created_date` month bucket of line 94. -/
structure CleanRow where
  total : ℚ
  transaction_type : String
  typ : String
  country : String
  source : String
  day : Date
  int_created_date : String
deriving DecidableEq

/-- Failure of `process_data`. When the `Success` column is absent,
`df.get(Success, 0)` returns the scalar `0`, so the row mask
`df.get(Success, 0) == 1` evaluates to the plain boolean `False`, and
`df[False]` raises `KeyError: False` (a scalar is looked up as a column
label, not used as a mask). -/
inductive CleanError
  | missingSuccessColumn
deriving DecidableEq

/-- Line 84: drop `Transaction_ID` and `Auth_code` when present
(`inplace := True` on the caller frame). -/
def dropIDColumns (t : RawTable) : RawTable :=
  { t with hasTransactionID := false, hasAuthCode := false }

/-- Line 87 when the `Success` column is present:
`df = df[df.get(Success, 0) == 1]`. -/
def successFilter (rows : List RawRow) : List RawRow :=
  rows.filter (fun r => r.success == 1)

/-- Line 88: `df[Transaction_Notes].fillna(N/A)` replaces a missing note
with the literal sentinel. -/
def fillNotes (r : RawRow) : RawRow :=
  { r with transaction_notes := some (r.transaction_notes.getD "N/A") }

/-- Lines 93 and 94: project a raw row with parsed date `d` to the six
kept columns and derive `int_created_date`. -/
def projectRow (r : RawRow) (d : Date) : CleanRow :=
  { total := r.total
    transaction_type := r.transaction_type
    typ := r.typ
    country := r.country
    source := r.source
    day := d
    int_created_date := d.periodKey }

/-- Lines 89 and 90: `pd.to_datetime(errors := coerce)` followed by
`dropna(subset := [Day])` keeps exactly the rows whose `Day` parses,
pairing each with its parsed date. -/
def coerceDates (rows : List RawRow) : List (RawRow × Date) :=
  rows.filterMap (fun r => r.day.map (fun d => (r, d)))

/-- Body of `process_data` after the column drop (lines 87 to 96),
acting on the state the drop left behind. -/
def cleanBody (t : RawTable) : Except CleanError (List CleanRow) :=
  if t.hasSuccess then
    .ok ((coerceDates ((successFilter t.rows).map fillNotes)).map
      (fun rd => projectRow rd.1 rd.2))
  else
    .error .missingSuccessColumn

/-- `process_data` (lines 80 to 96). The first component is the caller
frame as the in-place column drop of line 84 leaves it; the second is
the cleaned record set, or the error the success-filter line raises when
the `Success` column is absent. -/
def process_data (t : RawTable) : RawTable × Except CleanError (List CleanRow) :=
  (dropIDColumns t, cleanBody (dropIDColumns t))

/-- The sidebar selections: one value per filtered column, where the
string `All` is the wildcard. `typ` is the `Type` selection
(PaymentStatus), `transaction_type` the PaymentMethod, `source` the
PaymentApplication, `country` the PaymentCountry. -/
structure Filters where
  typ : String
  transaction_type : String
  source : String
  country : String
deriving DecidableEq

/-- One iteration of the loop in `apply_filters` (lines 102 to 104):
when the selection is not the wildcard, keep the rows whose column
equals it. -/
def filterField (sel : String) (get : CleanRow → String)
    (rows : List CleanRow) : List CleanRow :=
  if sel ≠ "All" then rows.filter (fun r => get r == sel) else rows

/-- `apply_filters` (lines 101 to 110): the four equality filters in the
insertion order of the `filters` dict, then the inclusive date-range
mask. -/
def apply_filters (rows : List CleanRow) (f : Filters) (sd ed : Date) :
    List CleanRow :=
  let r1 := filterField f.typ (fun r => r.typ) rows
  let r2 := filterField f.transaction_type (fun r => r.transaction_type) r1
  let r3 := filterField f.source (fun r => r.source) r2
  let r4 := filterField f.country (fun r => r.country) r3
  r4.filter (fun r => decide (sd ≤ r.day) && decide (r.day ≤ ed))

/-- `df_filtered[Total].sum()`. -/
def sumTotal (rows : List CleanRow) : ℚ :=
  (rows.map (fun r => r.total)).sum

/-- `df_filtered[Total].mean()`: `none` models the NaN pandas returns on
an empty column (no fault is raised). -/
def meanTotal (rows : List CleanRow) : Option ℚ :=
  if rows.length = 0 then none else some (sumTotal rows / rows.length)

/-- The four summary metrics of lines 122 to 130. The success rate of
line 130 is `len(df_filtered) / len(df) * 100` where `df` is the cleaned
frame; its two division operands are recorded as `successRateNum` and
`successRateDen`. -/
structure Metrics where
  totalTransactions : Nat
  totalVolume : ℚ
  averageTransaction : Option ℚ
  successRateNum : Nat
  successRateDen : Nat
  successRate : ℚ
deriving DecidableEq

/-- A failure that halts the script run. `dateRangeInvalid` is the
`st.stop` of line 77; `cleanFailed` wraps a `process_data` error;
`zeroDivisionError` is the Python `ZeroDivisionError` raised by line 130
when `len(df)` is zero. -/
inductive PipelineError
  | dateRangeInvalid
  | cleanFailed (e : CleanError)
  | zeroDivisionError
deriving DecidableEq

/-- Lines 122 to 130: compute the four summary metrics from the cleaned
frame and the filtered view. Integer division by `len(df) = 0` raises. -/
def computeMetrics (cleaned filtered : List CleanRow) :
    Except PipelineError Metrics :=
  if cleaned.length = 0 then .error .zeroDivisionError
  else
    .ok
      { totalTransactions := filtered.length
        totalVolume := sumTotal filtered
        averageTransaction := meanTotal filtered
        successRateNum := filtered.length
        successRateDen := cleaned.length
        successRate := (filtered.length : ℚ) / (cleaned.length : ℚ) * 100 }

/-- The script run after the date-range validation passed: clean, filter,
compute the metrics. -/
def pipelineBody (raw : RawTable) (f : Filters) (sd ed : Date) :
    Except PipelineError (List CleanRow × Metrics) :=
  match (process_data raw).2 with
  | .error e => .error (.cleanFailed e)
  | .ok cleaned =>
    match computeMetrics cleaned (apply_filters cleaned f sd ed) with
    | .error e => .error e
    | .ok m => .ok (apply_filters cleaned f sd ed, m)

/-- One script run: lines 75 to 77 stop with an error message when the
start date is after the end date, before any cleaning or filtering;
otherwise cleaning, filtering and the metrics run. -/
def runPipeline (raw : RawTable) (f : Filters) (sd ed : Date) :
    Except PipelineError (List CleanRow × Metrics) :=
  if sd ≤ ed then pipelineBody raw f sd ed else .error .dateRangeInvalid

/-- Distribution tab: the list of amounts handed to the histogram. -/
def distribution (rows : List CleanRow) : List ℚ :=
  rows.map (fun r => r.total)

/-- Distinct values of a list in order of first occurrence: the group
keys of an aggregate. -/
def firstKeys {α : Type} [DecidableEq α] (l : List α) : List α :=
  l.foldl (fun acc a => if a ∈ acc then acc else acc ++ [a]) []

/-- Time-series tab: mean amount grouped by the month bucket. -/
def timeSeries (rows : List CleanRow) : List (String × Option ℚ) :=
  (firstKeys (rows.map (fun r => r.int_created_date))).map
    (fun k => (k, meanTotal (rows.filter (fun r => r.int_created_date == k))))

/-- Volume tab: summed amount grouped by month bucket and `Type`. -/
def volumeSeries (rows : List CleanRow) : List ((String × String) × ℚ) :=
  (firstKeys (rows.map (fun r => (r.int_created_date, r.typ)))).map
    (fun k => (k, sumTotal (rows.filter
      (fun r => r.int_created_date == k.1 && r.typ == k.2))))

/-- Payment-types tab: record count grouped by `Type`. -/
def typeCounts (rows : List CleanRow) : List (String × Nat) :=
  (firstKeys (rows.map (fun r => r.typ))).map
    (fun k => (k, (rows.filter (fun r => r.typ == k)).length))

/-! ### Concrete sample data

A small uploaded file exercising each cleaning rule: a successful January
row, a successful February row, a failed row, a row whose `Day` cell does
not parse; variants without the `Success` column and with only failed
rows. -/

/-- A successful January transaction with a parseable date. -/
def rowOkJan : RawRow :=
  ⟨100, "card", "completed", "web", "US", some ⟨2024, 1, 15⟩, none, 1⟩

/-- A successful February transaction with a parseable date. -/
def rowOkFeb : RawRow :=
  ⟨200, "bank", "completed", "app", "DE", some ⟨2024, 2, 10⟩, some "wire", 1⟩

/-- A transaction with `Success = 0`. -/
def rowFailed : RawRow :=
  ⟨50, "card", "failed", "web", "US", some ⟨2024, 1, 20⟩, none, 0⟩

/-- A successful transaction whose `Day` cell does not parse as a date. -/
def rowBadDate : RawRow :=
  ⟨75, "card", "completed", "web", "US", none, none, 1⟩

/-- A sample upload with all special columns present. -/
def sampleRaw : RawTable :=
  ⟨true, true, true, [rowOkJan, rowOkFeb, rowFailed, rowBadDate]⟩

/-- A sample upload without the `Success` column. -/
def rawNoSuccessCol : RawTable :=
  ⟨true, true, false, [rowOkJan, rowOkFeb]⟩

/-- A sample upload whose only row has `Success = 0`, so cleaning leaves
nothing. -/
def rawAllFailed : RawTable :=
  ⟨false, false, true, [rowFailed]⟩

/-- The wildcard selection on every filter. -/
def allFilters : Filters := ⟨"All", "All", "All", "All"⟩

/-- A country selection matched by some sample rows. -/
def usFilter : Filters := ⟨"All", "All", "All", "US"⟩

/-- A country selection matched by no sample row. -/
def frFilter : Filters := ⟨"All", "All", "All", "FR"⟩

/-- A start date before all sample dates. -/
def dLo : Date := ⟨2023, 1, 1⟩

/-- An end date after all sample dates. -/
def dHi : Date := ⟨2025, 1, 1⟩

/-- The cleaned record set of `sampleRaw`, written out. -/
def cleanedSample : List CleanRow :=
  [⟨100, "card", "completed", "US", "web", ⟨2024, 1, 15⟩, "2024-01"⟩,
   ⟨200, "bank", "completed", "DE", "app", ⟨2024, 2, 10⟩, "2024-02"⟩]

/-- The metrics of `cleanedSample` filtered to country `US`. -/
def metricsUS : Metrics := ⟨1, 100, some 100, 1, 2, 50⟩

/-- The metrics of `cleanedSample` with every filter at the wildcard. -/
def metricsAll : Metrics := ⟨2, 300, some 150, 2, 2, 100⟩

/-! ### Theorems -/

/-- Claim C1, counterexample: on an upload without a `Success` column,
cleaning does not retain every row — it fails outright, because the row
mask `df.get(Success, 0) == 1` is the scalar `False` and `df[False]` is a
column lookup that raises `KeyError`. -/
theorem missing_success_column_fails :
    rawNoSuccessCol.hasSuccess = false ∧ rawNoSuccessCol.rows.length = 2 ∧
    (process_data rawNoSuccessCol).2 = .error .missingSuccessColumn :=
  ⟨rfl, rfl, rfl⟩

/-- Claim C1, amended: when the `Success` column is present, the success
filter retains exactly the rows whose indicator equals 1; when it is
absent, cleaning fails with the column-lookup error instead of retaining
every row. -/
theorem success_filter_exact_or_missing_column_error (t : RawTable) :
    (t.hasSuccess = true →
      ∀ r : RawRow, r ∈ successFilter t.rows ↔ r ∈ t.rows ∧ r.success = 1) ∧
    (t.hasSuccess = false →
      (process_data t).2 = .error .missingSuccessColumn) := by
  constructor
  · intro _ r
    simp [successFilter, List.mem_filter]
  · intro h
    simp [process_data, cleanBody, dropIDColumns, h]

/-- Claim C1, witness: both branches of the amended claim at concrete
uploads. -/
theorem success_filter_exact_witness :
    (rowOkJan ∈ successFilter sampleRaw.rows ↔
      rowOkJan ∈ sampleRaw.rows ∧ rowOkJan.success = 1) ∧
    (process_data rawNoSuccessCol).2 = .error .missingSuccessColumn :=
  ⟨(success_filter_exact_or_missing_column_error sampleRaw).1 rfl rowOkJan,
   (success_filter_exact_or_missing_column_error rawNoSuccessCol).2 rfl⟩

/-- Claim C2: whenever the metrics of two filter settings over the same
cleaned set both evaluate, the success-rate denominator of each is the
cleaned row count, hence the same, even when the first filter setting
removes rows. -/
theorem successRate_denominator_constant (cleaned : List CleanRow)
    (f1 f2 : Filters) (sd1 ed1 sd2 ed2 : Date) (m1 m2 : Metrics)
    (h1 : computeMetrics cleaned (apply_filters cleaned f1 sd1 ed1) = .ok m1)
    (h2 : computeMetrics cleaned (apply_filters cleaned f2 sd2 ed2) = .ok m2)
    (_hrem : (apply_filters cleaned f1 sd1 ed1).length < cleaned.length) :
    m1.successRateDen = cleaned.length ∧ m2.successRateDen = cleaned.length ∧
    m1.successRateDen = m2.successRateDen := by
  by_cases h0 : cleaned.length = 0
  · simp [computeMetrics, h0] at h1
  · simp only [computeMetrics, if_neg h0, Except.ok.injEq] at h1 h2
    subst h1
    subst h2
    exact ⟨rfl, rfl, rfl⟩

/-- The metrics of `cleanedSample` under the `US` country filter. -/
lemma metricsUS_eq :
    computeMetrics cleanedSample (apply_filters cleanedSample usFilter dLo dHi) =
      .ok metricsUS := by
  have hf : apply_filters cleanedSample usFilter dLo dHi =
      [⟨100, "card", "completed", "US", "web", ⟨2024, 1, 15⟩, "2024-01"⟩] := rfl
  rw [hf]
  norm_num [computeMetrics, cleanedSample, metricsUS, sumTotal, meanTotal,
    Metrics.mk.injEq]

/-- The metrics of `cleanedSample` under the wildcard filters. -/
lemma metricsAll_eq :
    computeMetrics cleanedSample (apply_filters cleanedSample allFilters dLo dHi) =
      .ok metricsAll := by
  have hf : apply_filters cleanedSample allFilters dLo dHi = cleanedSample := rfl
  rw [hf]
  norm_num [computeMetrics, cleanedSample, metricsAll, sumTotal, meanTotal,
    Metrics.mk.injEq]

/-- Claim C2, witness: the `US` filter removes one of the two cleaned
rows, yet both metric records carry denominator 2. -/
theorem successRate_denominator_constant_witness :
    metricsUS.successRateDen = cleanedSample.length ∧
    metricsAll.successRateDen = cleanedSample.length ∧
    metricsUS.successRateDen = metricsAll.successRateDen :=
  successRate_denominator_constant cleanedSample usFilter allFilters
    dLo dHi dLo dHi metricsUS metricsAll metricsUS_eq metricsAll_eq (by decide)

/-- Membership in one equality-filter pass of `apply_filters`. -/
lemma mem_filterField (sel : String) (get : CleanRow → String)
    (rows : List CleanRow) (r : CleanRow) :
    r ∈ filterField sel get rows ↔ r ∈ rows ∧ (sel ≠ "All" → get r = sel) := by
  by_cases h : sel = "All" <;>
    simp [filterField, h, List.mem_filter]

/-- Claim C3: a record is in the filtered view exactly when it is in the
cleaned set, matches every non-wildcard field selection by case-sensitive
equality, and its date lies in the inclusive range; the active filters
and the range compose as a conjunction. -/
theorem apply_filters_mem_iff (rows : List CleanRow) (f : Filters)
    (sd ed : Date) (_hd : sd ≤ ed) (r : CleanRow) :
    r ∈ apply_filters rows f sd ed ↔
      r ∈ rows ∧
      (f.typ ≠ "All" → r.typ = f.typ) ∧
      (f.transaction_type ≠ "All" → r.transaction_type = f.transaction_type) ∧
      (f.source ≠ "All" → r.source = f.source) ∧
      (f.country ≠ "All" → r.country = f.country) ∧
      sd ≤ r.day ∧ r.day ≤ ed := by
  simp only [apply_filters, List.mem_filter, mem_filterField,
    Bool.and_eq_true, decide_eq_true_eq]
  tauto

/-- Claim C3, witness: the characterization at the first cleaned sample
row under the `US` country filter. -/
theorem apply_filters_mem_iff_witness :
    cleanedSample[0] ∈ apply_filters cleanedSample usFilter dLo dHi ↔
      cleanedSample[0] ∈ cleanedSample ∧
      (usFilter.typ ≠ "All" → (cleanedSample[0]).typ = usFilter.typ) ∧
      (usFilter.transaction_type ≠ "All" →
        (cleanedSample[0]).transaction_type = usFilter.transaction_type) ∧
      (usFilter.source ≠ "All" → (cleanedSample[0]).source = usFilter.source) ∧
      (usFilter.country ≠ "All" → (cleanedSample[0]).country = usFilter.country) ∧
      dLo ≤ (cleanedSample[0]).day ∧ (cleanedSample[0]).day ≤ dHi :=
  apply_filters_mem_iff cleanedSample usFilter dLo dHi (by decide)
    (cleanedSample[0])

/-- Claim C4: with every selection at the wildcard and a date range
covering every date in the data, filtering is the identity. -/
theorem apply_filters_wildcard_identity (rows : List CleanRow) (sd ed : Date)
    (h : ∀ r ∈ rows, sd ≤ r.day ∧ r.day ≤ ed) :
    apply_filters rows ⟨"All", "All", "All", "All"⟩ sd ed = rows := by
  simp only [apply_filters, filterField, ne_eq, not_true_eq_false, if_false,
    reduceIte]
  rw [List.filter_eq_self]
  intro r hr
  simp [decide_eq_true_eq, (h r hr).1, (h r hr).2]

/-- Claim C4, witness: the wildcard filters and a spanning range leave
the cleaned sample unchanged. -/
theorem apply_filters_wildcard_identity_witness :
    apply_filters cleanedSample allFilters dLo dHi = cleanedSample :=
  apply_filters_wildcard_identity cleanedSample dLo dHi (by decide)

/-- Claim C5, counterexample: on an upload whose cleaned set is empty the
filtered view is empty, yet the run faults with the zero division of the
success-rate metric instead of returning empty aggregates without
error. -/
theorem empty_filtered_view_fault :
    (process_data rawAllFailed).2 = .ok [] ∧
    dLo ≤ dHi ∧
    apply_filters [] allFilters dLo dHi = [] ∧
    runPipeline rawAllFailed allFilters dLo dHi = .error .zeroDivisionError :=
  ⟨rfl, by decide, rfl, rfl⟩

/-- Claim C5, amended: over a nonempty cleaned set, a filter setting with
an empty filtered view yields four empty aggregates, a mean reported as
the undefined-safe `none`, and metrics that evaluate without any
division fault. -/
theorem empty_filtered_view_safe_of_nonempty_clean (cleaned : List CleanRow)
    (f : Filters) (sd ed : Date) (hne : cleaned ≠ [])
    (hempty : apply_filters cleaned f sd ed = []) :
    distribution (apply_filters cleaned f sd ed) = [] ∧
    timeSeries (apply_filters cleaned f sd ed) = [] ∧
    volumeSeries (apply_filters cleaned f sd ed) = [] ∧
    typeCounts (apply_filters cleaned f sd ed) = [] ∧
    meanTotal (apply_filters cleaned f sd ed) = none ∧
    computeMetrics cleaned (apply_filters cleaned f sd ed) =
      .ok { totalTransactions := 0
            totalVolume := 0
            averageTransaction := none
            successRateNum := 0
            successRateDen := cleaned.length
            successRate := 0 } := by
  rw [hempty]
  have h0 : ¬ cleaned.length = 0 := by
    simpa [List.length_eq_zero] using hne
  refine ⟨rfl, rfl, rfl, rfl, rfl, ?_⟩
  simp [computeMetrics, h0, meanTotal, sumTotal, Metrics.mk.injEq]

/-- Claim C5, witness: the `FR` country filter matches no cleaned sample
row; every aggregate is empty and the metrics evaluate safely. -/
theorem empty_filtered_view_safe_witness :
    distribution (apply_filters cleanedSample frFilter dLo dHi) = [] ∧
    timeSeries (apply_filters cleanedSample frFilter dLo dHi) = [] ∧
    volumeSeries (apply_filters cleanedSample frFilter dLo dHi) = [] ∧
    typeCounts (apply_filters cleanedSample frFilter dLo dHi) = [] ∧
    meanTotal (apply_filters cleanedSample frFilter dLo dHi) = none ∧
    computeMetrics cleanedSample (apply_filters cleanedSample frFilter dLo dHi) =
      .ok { totalTransactions := 0
            totalVolume := 0
            averageTransaction := none
            successRateNum := 0
            successRateDen := cleanedSample.length
            successRate := 0 } :=
  empty_filtered_view_safe_of_nonempty_clean cleanedSample frFilter dLo dHi
    (by decide) rfl

/-- The body after the date validation never reports the date-range
error. -/
lemma pipelineBody_ne_dateRangeInvalid (raw : RawTable) (f : Filters)
    (sd ed : Date) : pipelineBody raw f sd ed ≠ .error .dateRangeInvalid := by
  unfold pipelineBody
  cases h : (process_data raw).2 with
  | error e => simp
  | ok cleaned =>
    unfold computeMetrics
    by_cases h0 : cleaned.length = 0 <;> simp [h0]

/-- Claim C6: a start date after the end date halts the run with the
date-range error before cleaning, filtering or metrics; otherwise the
run is exactly the unguarded pipeline and never reports that error. -/
theorem date_range_guard (raw : RawTable) (f : Filters) (sd ed : Date) :
    (¬ sd ≤ ed → runPipeline raw f sd ed = .error .dateRangeInvalid) ∧
    (sd ≤ ed → runPipeline raw f sd ed = pipelineBody raw f sd ed ∧
      runPipeline raw f sd ed ≠ .error .dateRangeInvalid) := by
  constructor
  · intro h
    simp [runPipeline, h]
  · intro h
    have he : runPipeline raw f sd ed = pipelineBody raw f sd ed := by
      simp [runPipeline, h]
    exact ⟨he, he ▸ pipelineBody_ne_dateRangeInvalid raw f sd ed⟩

/-- Claim C6, witness: a reversed range halts with the date-range error;
an ordered range proceeds to the pipeline body. -/
theorem date_range_guard_witness :
    (runPipeline sampleRaw allFilters dHi dLo = .error .dateRangeInvalid) ∧
    (runPipeline sampleRaw allFilters dLo dHi =
        pipelineBody sampleRaw allFilters dLo dHi ∧
      runPipeline sampleRaw allFilters dLo dHi ≠ .error .dateRangeInvalid) :=
  ⟨(date_range_guard sampleRaw allFilters dHi dLo).1 (by decide),
   (date_range_guard sampleRaw allFilters dLo dHi).2 (by decide)⟩

/-- Membership in the date-coercion step: exactly the rows whose `Day`
parses survive, paired with the parsed date. -/
lemma mem_coerceDates (l : List RawRow) (r : RawRow) (d : Date) :
    (r, d) ∈ coerceDates l ↔ r ∈ l ∧ r.day = some d := by
  simp only [coerceDates, List.mem_filterMap, Option.map_eq_some', Prod.mk.injEq]
  constructor
  · rintro ⟨a, ha, d0, hd0, rfl, rfl⟩
    exact ⟨ha, hd0⟩
  · rintro ⟨hr, hd⟩
    exact ⟨r, hr, d, hd, rfl, rfl⟩

/-- Claim C7: with the `Success` column present, cleaning returns a
result (rows with unparseable dates never raise an error), and the
cleaned records are exactly the projections of the success-filtered rows
whose `Day` parses. -/
theorem clean_drops_unparseable_dates (t : RawTable) (h : t.hasSuccess = true) :
    ∃ out, (process_data t).2 = .ok out ∧
      ∀ c : CleanRow, c ∈ out ↔
        ∃ r ∈ successFilter t.rows, ∃ d : Date, r.day = some d ∧
          c = projectRow (fillNotes r) d := by
  have hs : (dropIDColumns t).hasSuccess = true := h
  refine ⟨(coerceDates ((successFilter t.rows).map fillNotes)).map
      (fun rd => projectRow rd.1 rd.2), ?_, ?_⟩
  · show cleanBody (dropIDColumns t) = _
    rw [cleanBody, if_pos hs]
    rfl
  intro c
  constructor
  · intro hc
    obtain ⟨⟨r, d⟩, hrd, hproj⟩ := List.mem_map.mp hc
    rw [mem_coerceDates] at hrd
    obtain ⟨r0, hr0, rfl⟩ := List.mem_map.mp hrd.1
    exact ⟨r0, hr0, d, hrd.2, hproj.symm⟩
  · rintro ⟨r, hr, d, hd, rfl⟩
    refine List.mem_map.mpr ⟨(fillNotes r, d), ?_, rfl⟩
    rw [mem_coerceDates]
    exact ⟨List.mem_map.mpr ⟨r, hr, rfl⟩, hd⟩

/-- Claim C7, witness: the characterization at the sample upload, whose
`rowBadDate` is silently dropped. -/
theorem clean_drops_unparseable_dates_witness :
    ∃ out, (process_data sampleRaw).2 = .ok out ∧
      ∀ c : CleanRow, c ∈ out ↔
        ∃ r ∈ successFilter sampleRaw.rows, ∃ d : Date, r.day = some d ∧
          c = projectRow (fillNotes r) d :=
  clean_drops_unparseable_dates sampleRaw rfl

/-- Claim C8: running `process_data` again on the caller frame the first
run left behind gives the very same result — the same cleaned output and
the same frame state — so cleaning twice on the same raw input yields
identical cleaned record sets. -/
theorem process_data_second_run_same_output (t : RawTable) :
    process_data ((process_data t).1) = process_data t := rfl

/-- Claim C9: when cleaning leaves no rows, every run with a valid date
range faults with the zero division of the success-rate metric, whatever
the filter criteria and date range. -/
theorem empty_cleaned_success_rate_fault (raw : RawTable) (f : Filters)
    (sd ed : Date) (h1 : sd ≤ ed) (h2 : (process_data raw).2 = .ok []) :
    runPipeline raw f sd ed = .error .zeroDivisionError := by
  simp [runPipeline, h1, pipelineBody, h2, computeMetrics]

/-- Claim C9, witness: the upload whose only row has `Success = 0` makes
every run fault. -/
theorem empty_cleaned_success_rate_fault_witness :
    runPipeline rawAllFailed allFilters dLo dHi = .error .zeroDivisionError :=
  empty_cleaned_success_rate_fault rawAllFailed allFilters dLo dHi
    (by decide) rfl

/-- Claim C10: `process_data` leaves the caller frame with both ID
columns dropped and everything else intact, so a frame that had either
column does not survive cleaning unchanged. -/
theorem process_data_mutates_input (t : RawTable) :
    ((process_data t).1).hasTransactionID = false ∧
    ((process_data t).1).hasAuthCode = false ∧
    ((process_data t).1).hasSuccess = t.hasSuccess ∧
    ((process_data t).1).rows = t.rows ∧
    (t.hasTransactionID = true ∨ t.hasAuthCode = true →
      (process_data t).1 ≠ t) := by
  refine ⟨rfl, rfl, rfl, rfl, ?_⟩
  intro hpres heq
  have hid : (process_data t).1.hasTransactionID = t.hasTransactionID :=
    congrArg RawTable.hasTransactionID heq
  have hac : (process_data t).1.hasAuthCode = t.hasAuthCode :=
    congrArg RawTable.hasAuthCode heq
  simp only [process_data, dropIDColumns] at hid hac
  rcases hpres with h | h <;> simp_all

/-- Claim C10, witness: the sample upload carries a `Transaction_ID`
column and is changed by cleaning. -/
theorem process_data_mutates_input_witness :
    (process_data sampleRaw).1 ≠ sampleRaw :=
  (process_data_mutates_input sampleRaw).2.2.2.2 (Or.inl rfl)

end InsightTxn
